import Mathlib

/-!
Verification of the GFF statistics generator (`gff_stats.py`).

The embedding models the two core components of the program:
the line parser `parse_gff_line` and the aggregator `process_gff`.
File input is abstracted to the list of its lines; Python dictionaries
(`defaultdict` accumulators) are modelled as insertion-ordered
association lists with in-place update, and Python's float division
plus `round(x, 1)` is modelled over exact rationals with
round-half-to-even, matching the rounding mode of the host library.
Python string primitives (`str.strip`, `str.split`, `int()` on its
ASCII fragment) are modelled structurally over the character list of
the string so that every definition evaluates by kernel reduction.
-/

/-- Python's ASCII whitespace for `str.strip()` and `int()`:
space, tab, newline, carriage return, vertical tab, form feed. -/
def pyIsSpace (c : Char) : Bool :=
  c = ' ' || c = '\t' || c = '\n' || c = '\r' || c = '\x0b' || c = '\x0c'

/-- Python `str.strip()` on the character list: drop whitespace from
both ends. -/
def pyStrip (l : List Char) : List Char :=
  ((l.dropWhile pyIsSpace).reverse.dropWhile pyIsSpace).reverse

/-- Python `str.strip()`. -/
def pyStripStr (s : String) : String :=
  String.mk (pyStrip s.data)

/-- Python `str.split(sep)` for a one-character separator, on the
character list: `"".split(sep)` is `[""]`, adjacent separators give
empty fields. -/
def pySplitChar (sep : Char) : List Char → List (List Char)
  | [] => [[]]
  | c :: rest =>
      if c = sep then [] :: pySplitChar sep rest
      else
        match pySplitChar sep rest with
        | [] => [[c]]
        | f :: fs => (c :: f) :: fs

/-- Python `s.split(sep)` for a one-character separator. -/
def pySplit (s : String) (sep : Char) : List String :=
  (pySplitChar sep s.data).map String.mk

/-- Tests whether the line starts with `#`, as `str.startswith('#')`. -/
def pyStartsWithHash : List Char → Bool
  | '#' :: _ => true
  | _ => false

/-- Accepts the tail of a Python `digitpart` once the previous character
was a digit: digits, with every underscore followed by a digit. -/
def digitsOk : List Char → Bool
  | [] => true
  | ['_'] => false
  | '_' :: c :: rest => c.isDigit && digitsOk (c :: rest)
  | c :: rest => c.isDigit && digitsOk rest

/-- Python `digitpart` grammar: `digit (["_"] digit)*` — nonempty, no
leading or trailing underscore, no doubled underscore. -/
def pyDigitpart (ds : List Char) : Bool :=
  match ds with
  | [] => false
  | '_' :: _ => false
  | _ => digitsOk ds

/-- Numeric value of a digit list, underscores already removed. -/
def digitsToNat (ds : List Char) : Nat :=
  ds.foldl (fun n c => 10 * n + (c.toNat - '0'.toNat)) 0

/-- Value of a digitpart: drop the underscores, read the digits. -/
def digitsVal (ds : List Char) : Int :=
  (digitsToNat (ds.filter (fun c => c != '_')) : Int)

/-- Python `int(s)` on its ASCII fragment: strip surrounding whitespace,
optional `+`/`-` sign, then a `digitpart`; `none` models `ValueError`. -/
def pyInt (s : String) : Option Int :=
  match pyStrip s.data with
  | '+' :: rest => if pyDigitpart rest then some (digitsVal rest) else none
  | '-' :: rest => if pyDigitpart rest then some (-(digitsVal rest)) else none
  | l => if pyDigitpart l then some (digitsVal l) else none

/-- One parsed GFF feature, the dictionary built by `parse_gff_line`. -/
structure GffRecord where
  seqname : String
  source : String
  feature : String
  start : Int
  «end» : Int
  score : String
  strand : String
  frame : String
  attributes : String
  deriving DecidableEq, Repr

/-- Outcome of parsing one line: comment/blank/short lines are skipped,
a non-integer `start`/`end` field raises (`intError`), otherwise a
record is produced. -/
inductive ParseResult where
  | skip
  | intError
  | record (r : GffRecord)
  deriving DecidableEq, Repr

/-- Embedding of `parse_gff_line`: strip the line, skip blanks and
`#`-comments, split on tabs, skip lines with fewer than 8 fields,
otherwise build the record with `int(fields[3])`, `int(fields[4])`. -/
def parse_gff_line (line : String) : ParseResult :=
  let l := pyStripStr line
  if l = "" || pyStartsWithHash l.data then .skip
  else
    let fields := pySplit l '\t'
    if fields.length < 8 then .skip
    else
      match pyInt fields[3]!, pyInt fields[4]! with
      | some s, some e =>
          .record {
            seqname := fields[0]!
            source := fields[1]!
            feature := fields[2]!
            start := s
            «end» := e
            score := fields[5]!
            strand := fields[6]!
            frame := fields[7]!
            attributes := if fields.length > 8 then fields[8]! else "" }
      | _, _ => .intError

/-- Embedding of `calculate_length`: `end - start + 1`. -/
def calculate_length (f : GffRecord) : Int :=
  f.«end» - f.start + 1

example : parse_gff_line "NC_000908.2\tRefSeq\tgene\t1\t107\t.\t+\t.\tID=gene-MG_0001" =
    .record ⟨"NC_000908.2", "RefSeq", "gene", 1, 107, ".", "+", ".", "ID=gene-MG_0001"⟩ := by
  decide

example : parse_gff_line "##gff-version 3" = .skip := by decide
example : parse_gff_line "" = .skip := by decide
example : parse_gff_line "NC_000908.2\tRefSeq\tgene" = .skip := by decide
example : parse_gff_line "a\tb\tc\t1\tx\t.\t+\t." = .intError := by decide
example : parse_gff_line "  NC_000908.2\tRefSeq\tCDS\t124\t202\t.\t+\t0\tID=cds-MG_0002  " =
    .record ⟨"NC_000908.2", "RefSeq", "CDS", 124, 202, ".", "+", "0", "ID=cds-MG_0002"⟩ := by
  decide
/-- Python `defaultdict(int)` update `d[k] += 1` on an
insertion-ordered association list: bump the existing entry in place,
or append a fresh entry with count 1. -/
def alistIncr (d : List (String × Nat)) (k : String) : List (String × Nat) :=
  match d with
  | [] => [(k, 1)]
  | (k', v) :: rest =>
      if k' = k then (k', v + 1) :: rest else (k', v) :: alistIncr rest k

/-- Python `defaultdict(list)` update `d[k].append(x)`. -/
def alistAppend (d : List (String × List Int)) (k : String) (x : Int) :
    List (String × List Int) :=
  match d with
  | [] => [(k, [x])]
  | (k', v) :: rest =>
      if k' = k then (k', v ++ [x]) :: rest else (k', v) :: alistAppend rest k x

/-- Dictionary lookup on an association list. -/
def dictLookup {α : Type} (d : List (String × α)) (k : String) : Option α :=
  match d with
  | [] => none
  | (k', v) :: rest => if k' = k then some v else dictLookup rest k

/-- Floor of a rational, computed by floor division of numerator by
denominator so that it evaluates by kernel reduction. -/
def ratFloor (q : ℚ) : ℤ :=
  Int.fdiv q.num q.den

/-- Round a rational to the nearest integer with ties to even, the
rounding mode of the host library's `round`. With `n` the floor, the
fractional part is `r / den`; it is compared against one half by
cross-multiplication so that the test is plain integer arithmetic. -/
def roundHalfToEven (q : ℚ) : ℤ :=
  let n := ratFloor q
  let r := q.num - n * (q.den : ℤ)
  if 2 * r < (q.den : ℤ) then n
  else if (q.den : ℤ) < 2 * r then n + 1
  else if n % 2 = 0 then n else n + 1

/-- Python `round(x, 1)`: scale by ten, round half to even, scale back. -/
def pyRound1 (q : ℚ) : ℚ :=
  (roundHalfToEven (q * 10) : ℚ) / 10

/-- Floor of log₂ on naturals, by fuel-bounded halving so that it
evaluates by kernel reduction; any `fuel ≥ n` gives ⌊log₂ n⌋ for
`n ≥ 1`. -/
def natLog2F (fuel n : Nat) : Nat :=
  match fuel with
  | 0 => 0
  | fuel + 1 => if n < 2 then 0 else natLog2F fuel (n / 2) + 1

/-- Floor of log₂ of a positive natural. -/
def natLog2 (n : Nat) : Nat :=
  natLog2F n n

/-- Floor of log₂ of `a / b` for positive `a` and `b`: the bit-length
difference is the answer or one above it, settled by one comparison. -/
def floorLog2 (a b : Nat) : Int :=
  let k : Int := (natLog2 a : Int) - (natLog2 b : Int)
  if 0 ≤ k then
    if b * 2 ^ k.toNat ≤ a then k else k - 1
  else
    if b ≤ a * 2 ^ (-k).toNat then k else k - 1

/-- Exact value of the IEEE-754 double nearest to `a / b` (`a`, `b`
positive): the 53-bit mantissa is obtained by scaling into
`[2^52, 2^53)` and rounding ties to even. The exponent range is
unbounded, so overflow and subnormal underflow — which the host would
raise on or misrepresent, and which no realistic coordinate reaches —
are not modelled. -/
def floatOfRatPos (a b : Nat) : ℚ :=
  let e : Int := floorLog2 a b - 52
  if 0 ≤ e then
    let m := roundHalfToEven ((a : ℚ) / ((b * 2 ^ e.toNat : Nat) : ℚ))
    (m : ℚ) * ((2 ^ e.toNat : Nat) : ℚ)
  else
    let m := roundHalfToEven (((a * 2 ^ (-e).toNat : Nat) : ℚ) / (b : ℚ))
    (m : ℚ) / ((2 ^ (-e).toNat : Nat) : ℚ)

/-- Exact value of the IEEE-754 double nearest to a rational. -/
def floatOfRat (q : ℚ) : ℚ :=
  if q.num = 0 then 0
  else if 0 < q.num then floatOfRatPos q.num.natAbs q.den
  else -floatOfRatPos q.num.natAbs q.den

/-- Faithful model of `round(sum(lengths) / len(lengths), 1)` over the
host's doubles: CPython's integer true division returns the correctly
rounded double of the exact quotient, and `round(x, 1)` rounds the
double's exact value half-to-even at one decimal place and returns the
nearest double of the result. -/
def pyFloatAvg1 (lengths : List Int) : ℚ :=
  floatOfRat (pyRound1 (floatOfRat ((lengths.sum : ℚ) / (lengths.length : ℚ))))

/-- The filter test of `process_gff`:
`filter_type is None or parsed['feature'] == filter_type`. -/
def matchesFilter (filter_type : Option String) (r : GffRecord) : Bool :=
  match filter_type with
  | none => true
  | some t => r.feature == t

/-- The parsing loop of `process_gff`: parse each line, keep records
passing the filter, propagate an integer-conversion error uncaught. -/
def processLines (lines : List String) (filter_type : Option String) :
    Except Unit (List GffRecord) :=
  match lines with
  | [] => .ok []
  | line :: rest =>
      match parse_gff_line line with
      | .intError => .error ()
      | .skip => processLines rest filter_type
      | .record r =>
          if matchesFilter filter_type r then
            (processLines rest filter_type).map (r :: ·)
          else processLines rest filter_type

/-- The `by_type` accumulation of `process_gff`. -/
def by_type_of (features : List GffRecord) : List (String × Nat) :=
  features.foldl (fun d f => alistIncr d f.feature) []

/-- The `lengths_by_type` accumulation of `process_gff`. -/
def lengths_by_type_of (features : List GffRecord) : List (String × List Int) :=
  features.foldl (fun d f => alistAppend d f.feature (calculate_length f)) []

/-- The `avg_length` computation of `process_gff`:
`round(sum(lengths) / len(lengths), 1)` per feature type. -/
def avg_length_of (features : List GffRecord) : List (String × ℚ) :=
  (lengths_by_type_of features).map
    (fun p => (p.1, pyRound1 ((p.2.sum : ℚ) / (p.2.length : ℚ))))

/-- The `avg_length` mapping with the arithmetic of
`round(sum(lengths) / len(lengths), 1)` modelled in double precision
(`pyFloatAvg1`) instead of exact rationals. -/
def avg_length_float_of (features : List GffRecord) : List (String × ℚ) :=
  (lengths_by_type_of features).map (fun p => (p.1, pyFloatAvg1 p.2))

/-- The `strand_distribution` accumulation of `process_gff`. -/
def strand_distribution_of (features : List GffRecord) : List (String × Nat) :=
  features.foldl (fun d f => alistIncr d f.strand) []

/-- The result dictionary of `process_gff`. -/
structure GffResult where
  total_features : Nat
  by_type : List (String × Nat)
  avg_length : List (String × ℚ)
  strand_distribution : List (String × Nat)
  deriving DecidableEq, Repr

/-- The statistics section of `process_gff`, applied to the retained
records. -/
def aggregate (features : List GffRecord) : GffResult :=
  { total_features := features.length
    by_type := by_type_of features
    avg_length := avg_length_of features
    strand_distribution := strand_distribution_of features }

/-- Embedding of `process_gff` over the list of input lines: parse and
filter, then aggregate; an integer-conversion error aborts the whole
run with no partial result. -/
def process_gff (lines : List String) (filter_type : Option String) :
    Except Unit GffResult :=
  (processLines lines filter_type).map aggregate

instance {ε α : Type} [DecidableEq ε] [DecidableEq α] :
    DecidableEq (Except ε α) := fun a b =>
  match a, b with
  | .ok x, .ok y =>
      if h : x = y then .isTrue (by rw [h]) else .isFalse (by simp [h])
  | .error x, .error y =>
      if h : x = y then .isTrue (by rw [h]) else .isFalse (by simp [h])
  | .ok _, .error _ => .isFalse (by simp)
  | .error _, .ok _ => .isFalse (by simp)

attribute [local semireducible] Rat.mul Rat.add Rat.sub Rat.inv

theorem sum_snd_alistIncr (d : List (String × Nat)) (k : String) :
    ((alistIncr d k).map Prod.snd).sum = (d.map Prod.snd).sum + 1 := by
  induction d with
  | nil => simp [alistIncr]
  | cons p rest ih =>
      obtain ⟨k', v⟩ := p
      by_cases h : k' = k <;> simp [alistIncr, h, ih] <;> omega

theorem dictLookup_alistIncr_self (d : List (String × Nat)) (k : String) :
    dictLookup (alistIncr d k) k = some ((dictLookup d k).getD 0 + 1) := by
  induction d with
  | nil => simp [alistIncr, dictLookup]
  | cons p rest ih =>
      obtain ⟨k', v⟩ := p
      by_cases h : k' = k <;> simp [alistIncr, dictLookup, h, ih]

theorem dictLookup_alistIncr_ne (d : List (String × Nat)) {k t : String}
    (h : t ≠ k) : dictLookup (alistIncr d k) t = dictLookup d t := by
  induction d with
  | nil => simp [alistIncr, dictLookup, Ne.symm h]
  | cons p rest ih =>
      obtain ⟨k', v⟩ := p
      by_cases hk : k' = k
      · subst hk
        simp [alistIncr, dictLookup, Ne.symm h]
      · by_cases ht : k' = t <;> simp [alistIncr, dictLookup, hk, ht, ih, h]

theorem sum_snd_foldl_alistIncr {α : Type} (g : α → String) (feats : List α)
    (d : List (String × Nat)) :
    ((feats.foldl (fun d f => alistIncr d (g f)) d).map Prod.snd).sum
      = (d.map Prod.snd).sum + feats.length := by
  induction feats generalizing d with
  | nil => simp
  | cons f fs ih =>
      simp only [List.foldl_cons, ih, sum_snd_alistIncr, List.length_cons]
      omega

theorem process_gff_ok_iff {lines : List String} {filt : Option String}
    {r : GffResult} :
    process_gff lines filt = .ok r
      ↔ ∃ feats, processLines lines filt = .ok feats ∧ aggregate feats = r := by
  unfold process_gff
  cases h : processLines lines filt <;> simp [Except.map]

theorem dictLookup_foldl_alistIncr_some {α : Type} (g : α → String)
    (feats : List α) (d : List (String × Nat)) (t : String) (n : Nat)
    (h : dictLookup d t = some n) :
    dictLookup (feats.foldl (fun d f => alistIncr d (g f)) d) t
      = some (n + feats.countP (fun f => g f == t)) := by
  induction feats generalizing d n with
  | nil => simpa using h
  | cons f fs ih =>
      simp only [List.foldl_cons, List.countP_cons]
      by_cases hg : g f = t
      · subst hg
        have h1 : dictLookup (alistIncr d (g f)) (g f) = some (n + 1) := by
          rw [dictLookup_alistIncr_self, h]
          rfl
        rw [ih _ _ h1]
        have hb : (g f == g f) = true := by simp
        rw [hb]
        simp only [if_true, Option.some.injEq]
        omega
      · have h1 : dictLookup (alistIncr d (g f)) t = some n := by
          rw [dictLookup_alistIncr_ne _ (fun he => hg he.symm), h]
        rw [ih _ _ h1]
        simp [hg]

theorem dictLookup_foldl_alistIncr_none {α : Type} (g : α → String)
    (feats : List α) (d : List (String × Nat)) (t : String)
    (h : dictLookup d t = none) :
    dictLookup (feats.foldl (fun d f => alistIncr d (g f)) d) t
      = if feats.countP (fun f => g f == t) = 0 then none
        else some (feats.countP (fun f => g f == t)) := by
  induction feats generalizing d with
  | nil => simpa using h
  | cons f fs ih =>
      simp only [List.foldl_cons, List.countP_cons]
      by_cases hg : g f = t
      · subst hg
        have h1 : dictLookup (alistIncr d (g f)) (g f) = some 1 := by
          rw [dictLookup_alistIncr_self, h]
          rfl
        rw [dictLookup_foldl_alistIncr_some g fs _ _ 1 h1]
        have hb : (g f == g f) = true := by simp
        rw [hb]
        simp only [if_true]
        rw [if_neg (by omega)]
        simp only [Option.some.injEq]
        omega
      · have h1 : dictLookup (alistIncr d (g f)) t = none := by
          rw [dictLookup_alistIncr_ne _ (fun he => hg he.symm), h]
        rw [ih _ h1]
        simp [hg]

theorem dictLookup_by_type_of (feats : List GffRecord) (t : String) :
    dictLookup (by_type_of feats) t
      = if feats.countP (fun f => f.feature == t) = 0 then none
        else some (feats.countP (fun f => f.feature == t)) := by
  unfold by_type_of
  exact dictLookup_foldl_alistIncr_none GffRecord.feature feats [] t rfl

theorem dictLookup_alistAppend_self (d : List (String × List Int))
    (k : String) (x : Int) :
    dictLookup (alistAppend d k x) k
      = some ((dictLookup d k).getD [] ++ [x]) := by
  induction d with
  | nil => simp [alistAppend, dictLookup]
  | cons p rest ih =>
      obtain ⟨k', v⟩ := p
      by_cases h : k' = k <;> simp [alistAppend, dictLookup, h, ih]

theorem dictLookup_alistAppend_ne (d : List (String × List Int))
    {k t : String} (x : Int) (h : t ≠ k) :
    dictLookup (alistAppend d k x) t = dictLookup d t := by
  induction d with
  | nil => simp [alistAppend, dictLookup, Ne.symm h]
  | cons p rest ih =>
      obtain ⟨k', v⟩ := p
      by_cases hk : k' = k
      · subst hk
        simp [alistAppend, dictLookup, Ne.symm h]
      · by_cases ht : k' = t <;> simp [alistAppend, dictLookup, hk, ht, ih, h]

theorem dictLookup_foldl_alistAppend_some {α : Type} (g : α → String)
    (v : α → Int) (feats : List α) (d : List (String × List Int))
    (t : String) (ls : List Int) (h : dictLookup d t = some ls) :
    dictLookup (feats.foldl (fun d f => alistAppend d (g f) (v f)) d) t
      = some (ls ++ (feats.filter (fun f => g f == t)).map v) := by
  induction feats generalizing d ls with
  | nil => simpa using h
  | cons f fs ih =>
      simp only [List.foldl_cons, List.filter_cons]
      by_cases hg : g f = t
      · subst hg
        have h1 : dictLookup (alistAppend d (g f) (v f)) (g f)
            = some (ls ++ [v f]) := by
          rw [dictLookup_alistAppend_self, h]
          rfl
        rw [ih _ _ h1]
        simp
      · have h1 : dictLookup (alistAppend d (g f) (v f)) t = some ls := by
          rw [dictLookup_alistAppend_ne _ _ (fun he => hg he.symm), h]
        rw [ih _ _ h1]
        simp [hg]

theorem dictLookup_foldl_alistAppend_none {α : Type} (g : α → String)
    (v : α → Int) (feats : List α) (d : List (String × List Int))
    (t : String) (h : dictLookup d t = none) :
    dictLookup (feats.foldl (fun d f => alistAppend d (g f) (v f)) d) t
      = if (feats.filter (fun f => g f == t)).isEmpty then none
        else some ((feats.filter (fun f => g f == t)).map v) := by
  induction feats generalizing d with
  | nil => simpa using h
  | cons f fs ih =>
      simp only [List.foldl_cons, List.filter_cons]
      by_cases hg : g f = t
      · subst hg
        have h1 : dictLookup (alistAppend d (g f) (v f)) (g f)
            = some [v f] := by
          rw [dictLookup_alistAppend_self, h]
          rfl
        rw [dictLookup_foldl_alistAppend_some g v fs _ _ [v f] h1]
        simp
      · have h1 : dictLookup (alistAppend d (g f) (v f)) t = none := by
          rw [dictLookup_alistAppend_ne _ _ (fun he => hg he.symm), h]
        rw [ih _ h1]
        simp [hg]

theorem dictLookup_lengths_by_type_of (feats : List GffRecord) (t : String) :
    dictLookup (lengths_by_type_of feats) t
      = if (feats.filter (fun f => f.feature == t)) = [] then none
        else some ((feats.filter (fun f => f.feature == t)).map calculate_length) := by
  unfold lengths_by_type_of
  rw [dictLookup_foldl_alistAppend_none GffRecord.feature calculate_length
    feats [] t rfl]
  by_cases h : (feats.filter (fun f => f.feature == t)) = [] <;>
    simp [h, List.isEmpty_iff]

theorem dictLookup_map_snd {α β : Type} (l : List (String × α)) (F : α → β)
    (t : String) :
    dictLookup (l.map (fun p => (p.1, F p.2))) t = (dictLookup l t).map F := by
  induction l with
  | nil => simp [dictLookup]
  | cons p rest ih =>
      obtain ⟨k', v⟩ := p
      by_cases h : k' = t <;> simp [dictLookup, h, ih]

theorem dictLookup_avg_length_of (feats : List GffRecord) (t : String) :
    dictLookup (avg_length_of feats) t
      = (dictLookup (lengths_by_type_of feats) t).map
          (fun ls => pyRound1 ((ls.sum : ℚ) / (ls.length : ℚ))) := by
  unfold avg_length_of
  exact dictLookup_map_snd (lengths_by_type_of feats)
    (fun ls => pyRound1 ((ls.sum : ℚ) / (ls.length : ℚ))) t

theorem processLines_eq_filter (lines : List String) (filt : Option String) :
    processLines lines filt
      = (processLines lines none).map (List.filter (matchesFilter filt)) := by
  induction lines with
  | nil => simp [processLines, Except.map]
  | cons l ls ih =>
      unfold processLines
      cases hp : parse_gff_line l with
      | intError => simp [Except.map]
      | skip => exact ih
      | record r =>
          have hnone : matchesFilter none r = true := rfl
          cases hx : processLines ls none with
          | error e =>
              rw [ih, hx]
              by_cases hm : matchesFilter filt r <;>
                simp [Except.map, hm, hnone]
          | ok recs =>
              rw [ih, hx]
              by_cases hm : matchesFilter filt r <;>
                simp [Except.map, List.filter_cons, hm, hnone]

theorem processLines_error_of_mem {line : String} (lines : List String)
    (filt : Option String) (hmem : line ∈ lines)
    (hline : parse_gff_line line = .intError) :
    processLines lines filt = .error () := by
  induction lines with
  | nil => cases hmem
  | cons l ls ih =>
      rcases List.mem_cons.mp hmem with rfl | hmem2
      · unfold processLines
        rw [hline]
      · unfold processLines
        cases parse_gff_line l with
        | intError => rfl
        | skip => exact ih hmem2
        | record r =>
            rw [ih hmem2]
            by_cases hm : matchesFilter filt r <;> simp [hm, Except.map]

/-- C4: every line that is empty after trimming, or whose trimmed
content begins with `#`, or whose trimmed content splits on tab into
fewer than 8 fields, is skipped by `parse_gff_line`: no record and no
error. -/
theorem claim_C4 (line : String)
    (h : pyStripStr line = ""
        ∨ pyStartsWithHash (pyStripStr line).data = true
        ∨ (pySplit (pyStripStr line) '\t').length < 8) :
    parse_gff_line line = .skip := by
  unfold parse_gff_line
  rcases h with h | h | h
  · simp [h]
  · simp [h]
  · by_cases h0 : pyStripStr line = ""
    · simp [h0]
    · by_cases h1 : pyStartsWithHash (pyStripStr line).data <;> simp [h0, h1, h]

/-- Witness for C4 on a comment line, an empty line and a short line. -/
theorem claim_C4_witness :
    pyStartsWithHash (pyStripStr "##gff-version 3").data = true ∧
    parse_gff_line "##gff-version 3" = .skip ∧
    parse_gff_line "   " = .skip ∧
    parse_gff_line "NC_000908.2\tRefSeq\tgene" = .skip :=
  ⟨by decide,
   claim_C4 "##gff-version 3" (Or.inr (Or.inl (by decide))),
   claim_C4 "   " (Or.inl (by decide)),
   claim_C4 "NC_000908.2\tRefSeq\tgene" (Or.inr (Or.inr (by decide)))⟩

theorem pyStripStr_ne_empty_of_fields {line : String}
    (hlen : 8 ≤ (pySplit (pyStripStr line) '\t').length) :
    ¬pyStripStr line = "" := by
  intro h0
  rw [h0] at hlen
  have : pySplit "" '\t' = [""] := rfl
  rw [this] at hlen
  simp at hlen

/-- C2 (amended): every line whose trimmed content does not begin with
`#` and has at least 8 tab-separated fields with fields 3 and 4
parseable as integers is parsed into a record whose fields are exactly
the split fields, with fields 3 and 4 converted to integers and
`attributes` the 9th field when present and `""` otherwise. -/
theorem claim_C2 (line : String)
    (hhash : pyStartsWithHash (pyStripStr line).data = false)
    (hlen : 8 ≤ (pySplit (pyStripStr line) '\t').length)
    (s e : Int)
    (h3 : pyInt (pySplit (pyStripStr line) '\t')[3]! = some s)
    (h4 : pyInt (pySplit (pyStripStr line) '\t')[4]! = some e) :
    parse_gff_line line = .record {
      seqname := (pySplit (pyStripStr line) '\t')[0]!
      source := (pySplit (pyStripStr line) '\t')[1]!
      feature := (pySplit (pyStripStr line) '\t')[2]!
      start := s
      «end» := e
      score := (pySplit (pyStripStr line) '\t')[5]!
      strand := (pySplit (pyStripStr line) '\t')[6]!
      frame := (pySplit (pyStripStr line) '\t')[7]!
      attributes := if (pySplit (pyStripStr line) '\t').length > 8
        then (pySplit (pyStripStr line) '\t')[8]! else "" } := by
  have hne := pyStripStr_ne_empty_of_fields hlen
  unfold parse_gff_line
  simp only [hne, hhash, decide_eq_false hne, Bool.false_or, Bool.or_false,
    if_neg, Bool.false_eq_true, not_false_eq_true, if_neg (Nat.not_lt.mpr hlen)]
  rw [h3, h4]
  simp

/-- Counterexample to C2 as stated: a comment line with 8 tab-separated
fields and integer fields 3 and 4 is skipped, not parsed into a
record. -/
theorem claim_C2_counterexample :
    ((pySplit (pyStripStr "#a\tb\tc\t1\t2\t.\t+\t.") '\t').length ≥ 8 ∧
     pyInt ((pySplit (pyStripStr "#a\tb\tc\t1\t2\t.\t+\t.") '\t')[3]!) = some 1 ∧
     pyInt ((pySplit (pyStripStr "#a\tb\tc\t1\t2\t.\t+\t.") '\t')[4]!) = some 2) ∧
    parse_gff_line "#a\tb\tc\t1\t2\t.\t+\t." = .skip := by
  decide

/-- Witness for C2 on a concrete well-formed line. -/
theorem claim_C2_witness :
    (pyStartsWithHash
        (pyStripStr "NC_000908.2\tRefSeq\tgene\t1\t107\t.\t+\t.").data = false ∧
      8 ≤ (pySplit (pyStripStr "NC_000908.2\tRefSeq\tgene\t1\t107\t.\t+\t.") '\t').length) ∧
    parse_gff_line "NC_000908.2\tRefSeq\tgene\t1\t107\t.\t+\t." = .record {
      seqname := (pySplit (pyStripStr "NC_000908.2\tRefSeq\tgene\t1\t107\t.\t+\t.") '\t')[0]!
      source := (pySplit (pyStripStr "NC_000908.2\tRefSeq\tgene\t1\t107\t.\t+\t.") '\t')[1]!
      feature := (pySplit (pyStripStr "NC_000908.2\tRefSeq\tgene\t1\t107\t.\t+\t.") '\t')[2]!
      start := 1
      «end» := 107
      score := (pySplit (pyStripStr "NC_000908.2\tRefSeq\tgene\t1\t107\t.\t+\t.") '\t')[5]!
      strand := (pySplit (pyStripStr "NC_000908.2\tRefSeq\tgene\t1\t107\t.\t+\t.") '\t')[6]!
      frame := (pySplit (pyStripStr "NC_000908.2\tRefSeq\tgene\t1\t107\t.\t+\t.") '\t')[7]!
      attributes := if (pySplit (pyStripStr "NC_000908.2\tRefSeq\tgene\t1\t107\t.\t+\t.") '\t').length > 8
        then (pySplit (pyStripStr "NC_000908.2\tRefSeq\tgene\t1\t107\t.\t+\t.") '\t')[8]! else "" } :=
  ⟨⟨by decide, by decide⟩,
   claim_C2 "NC_000908.2\tRefSeq\tgene\t1\t107\t.\t+\t." (by decide) (by decide)
     1 107 (by decide) (by decide)⟩

/-- C3 (amended): every line whose trimmed content does not begin with
`#` and has at least 8 tab-separated fields, but whose field 3 or
field 4 is not parseable as an integer, makes `parse_gff_line` raise,
and the error propagates out of `process_gff` for any input containing
that line: no partial result is produced. -/
theorem claim_C3 (line : String)
    (hhash : pyStartsWithHash (pyStripStr line).data = false)
    (hlen : 8 ≤ (pySplit (pyStripStr line) '\t').length)
    (h34 : pyInt (pySplit (pyStripStr line) '\t')[3]! = none
        ∨ pyInt (pySplit (pyStripStr line) '\t')[4]! = none) :
    parse_gff_line line = .intError ∧
    ∀ (lines : List String) (filt : Option String), line ∈ lines →
      process_gff lines filt = .error () := by
  have hne := pyStripStr_ne_empty_of_fields hlen
  have hp : parse_gff_line line = .intError := by
    unfold parse_gff_line
    simp only [hne, hhash, decide_eq_false hne, Bool.false_or, Bool.or_false,
      Bool.false_eq_true, not_false_eq_true, if_neg (Nat.not_lt.mpr hlen)]
    rcases h34 with h34 | h34
    · rw [h34]
      cases pyInt (pySplit (pyStripStr line) '\t')[4]! <;> simp
    · rw [h34]
      cases pyInt (pySplit (pyStripStr line) '\t')[3]! <;> simp
  refine ⟨hp, fun lines filt hmem => ?_⟩
  unfold process_gff
  rw [processLines_error_of_mem lines filt hmem hp]
  rfl

/-- Counterexample to C3 as stated: a comment line with 8 tab-separated
fields and a non-integer field 3 is silently skipped — no error is
raised and `process_gff` completes normally. -/
theorem claim_C3_counterexample :
    ((pySplit (pyStripStr "#a\tb\tc\tx\ty\t.\t+\t.") '\t').length ≥ 8 ∧
     pyInt ((pySplit (pyStripStr "#a\tb\tc\tx\ty\t.\t+\t.") '\t')[3]!) = none) ∧
    parse_gff_line "#a\tb\tc\tx\ty\t.\t+\t." = .skip ∧
    process_gff ["#a\tb\tc\tx\ty\t.\t+\t."] none = .ok ⟨0, [], [], []⟩ := by
  decide

/-- Witness for C3 on a concrete line with a non-integer start field. -/
theorem claim_C3_witness :
    parse_gff_line "a\tb\tc\tx\t2\t.\t+\t." = .intError ∧
    process_gff ["a\tb\tgene\t1\t9\t.\t+\t.", "a\tb\tc\tx\t2\t.\t+\t."] none
      = .error () :=
  ⟨(claim_C3 "a\tb\tc\tx\t2\t.\t+\t." (by decide) (by decide)
      (Or.inl (by decide))).1,
   (claim_C3 "a\tb\tc\tx\t2\t.\t+\t." (by decide) (by decide)
      (Or.inl (by decide))).2
     ["a\tb\tgene\t1\t9\t.\t+\t.", "a\tb\tc\tx\t2\t.\t+\t."] none (by decide)⟩

/-- C1: for every input (any sequence of lines, with or without a type
filter), the result of `process_gff` satisfies
`total_features = sum of the values of by_type` and
`total_features = sum of the values of strand_distribution`. -/
theorem claim_C1 (lines : List String) (filt : Option String) (r : GffResult)
    (h : process_gff lines filt = .ok r) :
    r.total_features = (r.by_type.map Prod.snd).sum ∧
    r.total_features = (r.strand_distribution.map Prod.snd).sum := by
  obtain ⟨feats, -, rfl⟩ := process_gff_ok_iff.mp h
  constructor <;>
    simp [aggregate, by_type_of, strand_distribution_of, sum_snd_foldl_alistIncr]

/-- Witness for C1 on a concrete two-record input. -/
theorem claim_C1_witness :
    process_gff
        ["NC_000001\ttest\tgene\t100\t200\t.\t+\t.\tID=t1",
         "NC_000001\ttest\tCDS\t100\t150\t.\t-\t0\tID=t2"] none =
      Except.ok ⟨2, [("gene", 1), ("CDS", 1)], [("gene", 101), ("CDS", 51)],
        [("+", 1), ("-", 1)]⟩ ∧
    ((2 : Nat) = ([(("gene" : String), (1 : Nat)), ("CDS", 1)].map Prod.snd).sum ∧
     (2 : Nat) = ([(("+" : String), (1 : Nat)), ("-", 1)].map Prod.snd).sum) := by
  refine ⟨by decide, ?_⟩
  exact claim_C1
    ["NC_000001\ttest\tgene\t100\t200\t.\t+\t.\tID=t1",
     "NC_000001\ttest\tCDS\t100\t150\t.\t-\t0\tID=t2"] none
    ⟨2, [("gene", 1), ("CDS", 1)], [("gene", 101), ("CDS", 51)],
      [("+", 1), ("-", 1)]⟩ (by decide)

example :
    process_gff ["NC_000001\ttest\tgene\t100\t200\t.\t+\t.\tID=test1"] none =
      .ok ⟨1, [("gene", 1)], [("gene", 101)], [("+", 1)]⟩ := by
  decide

example :
    process_gff ["##gff-version 3", "##sequence-region NC_000001 1 1000"] none =
      .ok ⟨0, [], [], []⟩ := by
  decide

example :
    process_gff
      ["NC_000001\ttest\tgene\t1\t10\t.\t+\t.\tID=g1",
       "NC_000001\ttest\tgene\t20\t29\t.\t+\t.\tID=g2",
       "NC_000001\ttest\tgene\t40\t44\t.\t+\t.\tID=g3"] none =
      .ok ⟨3, [("gene", 3)], [("gene", 83 / 10)], [("+", 3)]⟩ := by
  decide

example : pyRound1 (25 / 3) = 83 / 10 := by decide
example : pyRound1 (3 / 20) = 2 / 10 := by decide
example : pyRound1 (1 / 20) = 0 := by decide

example : floatOfRat (1 / 2) = 1 / 2 := by decide
example : floatOfRat 3 = 3 := by decide
example : floatOfRat (-(1 / 2)) = -(1 / 2) := by decide
example : floatOfRat (3 / 20) = 5404319552844595 / 2 ^ 55 := by decide
example : floatOfRat (1 / 10) = 3602879701896397 / 2 ^ 55 := by decide
example : pyRound1 (5404319552844595 / 2 ^ 55) = 1 / 10 := by decide
example : pyFloatAvg1 [10, 10, 5] = floatOfRat (83 / 10) := by decide
example : pyFloatAvg1 (List.replicate 3 1 ++ List.replicate 17 0)
    = floatOfRat (1 / 10) := by decide

example : pyInt "-5" = some (-5) := by decide
example : pyInt " 7 " = some 7 := by decide
example : pyInt "1_000" = some 1000 := by decide
example : pyInt "1__0" = none := by decide
example : pyInt "_1" = none := by decide
example : pyInt "1_" = none := by decide
example : pyInt "" = none := by decide
example : pyInt "+" = none := by decide

theorem foldl_alistIncr_all_same {α : Type} (g : α → String) (t : String)
    (fs : List α) (hall : ∀ f ∈ fs, g f = t) (m : Nat) :
    fs.foldl (fun d f => alistIncr d (g f)) [(t, m)] = [(t, m + fs.length)] := by
  induction fs generalizing m with
  | nil => simp
  | cons f rest ih =>
      have hf : g f = t := hall f (List.mem_cons_self f rest)
      simp only [List.foldl_cons, hf]
      have h1 : alistIncr [(t, m)] t = [(t, m + 1)] := by simp [alistIncr]
      rw [h1, ih (fun x hx => hall x (List.mem_cons_of_mem f hx)) (m + 1)]
      have hm : m + 1 + rest.length = m + (rest.length + 1) := by omega
      rw [List.length_cons, hm]

theorem by_type_of_all_same (t : String) (fs : List GffRecord)
    (hall : ∀ f ∈ fs, f.feature = t) :
    by_type_of fs = if fs.length = 0 then [] else [(t, fs.length)] := by
  cases fs with
  | nil => simp [by_type_of]
  | cons f rest =>
      unfold by_type_of
      simp only [List.foldl_cons]
      have h0 : alistIncr [] f.feature = [(f.feature, 1)] := rfl
      rw [h0, hall f (List.mem_cons_self f rest)]
      rw [foldl_alistIncr_all_same GffRecord.feature t rest
        (fun x hx => hall x (List.mem_cons_of_mem f hx)) 1]
      have hm : 1 + rest.length = rest.length + 1 := by omega
      rw [List.length_cons, hm, if_neg (by omega)]

theorem processLines_filtered {lines : List String} {T : String}
    {feats feats' : List GffRecord}
    (hf : processLines lines none = .ok feats)
    (hf' : processLines lines (some T) = .ok feats') :
    feats' = feats.filter (fun f => f.feature == T) := by
  have hpl := processLines_eq_filter lines (some T)
  rw [hf', hf] at hpl
  simp only [Except.map] at hpl
  have hmf : matchesFilter (some T) = (fun f => f.feature == T) := rfl
  rw [hmf] at hpl
  exact Except.ok.inj hpl

theorem aggregate_eq_of_ok {lines : List String} {filt : Option String}
    {feats : List GffRecord} {r : GffResult}
    (h1 : processLines lines filt = .ok feats)
    (h2 : process_gff lines filt = .ok r) :
    r = aggregate feats := by
  unfold process_gff at h2
  rw [h1] at h2
  simpa [Except.map] using h2.symm

/-- C5: for every input and every filter type `T`, the filtered run's
`by_type` is `{T: n}` and its `total_features` is `n`, where `n` is the
count of records of type `T` in the unfiltered run; if no record has
type `T`, `by_type` is empty and `total_features` is `0`. -/
theorem claim_C5 (lines : List String) (T : String) (r r' : GffResult)
    (h : process_gff lines none = .ok r)
    (h' : process_gff lines (some T) = .ok r') :
    r'.total_features = (dictLookup r.by_type T).getD 0 ∧
    r'.by_type =
      (if (dictLookup r.by_type T).getD 0 = 0 then []
       else [(T, (dictLookup r.by_type T).getD 0)]) := by
  obtain ⟨feats, hf, rfl⟩ := process_gff_ok_iff.mp h
  obtain ⟨feats', hf', rfl⟩ := process_gff_ok_iff.mp h'
  have hff := processLines_filtered hf hf'
  subst hff
  have hgetD : (dictLookup (aggregate feats).by_type T).getD 0
      = (feats.filter (fun f => f.feature == T)).length := by
    show (dictLookup (by_type_of feats) T).getD 0 = _
    rw [dictLookup_by_type_of, List.countP_eq_length_filter]
    by_cases hc : (feats.filter (fun f => f.feature == T)).length = 0 <;>
      simp [hc]
  constructor
  · rw [hgetD]
    rfl
  · rw [hgetD]
    show by_type_of (feats.filter (fun f => f.feature == T)) = _
    exact by_type_of_all_same T _
      (fun f hf => by simpa using (List.mem_filter.mp hf).2)

/-- Witness for C5 on a concrete input with two genes and one CDS,
filtered on "gene". -/
theorem claim_C5_witness :
    process_gff
        ["a\tt\tgene\t1\t10\t.\t+\t.", "a\tt\tCDS\t1\t4\t.\t-\t0",
         "a\tt\tgene\t5\t8\t.\t+\t."] none =
      Except.ok ⟨3, [("gene", 2), ("CDS", 1)], [("gene", 7), ("CDS", 4)],
        [("+", 2), ("-", 1)]⟩ ∧
    process_gff
        ["a\tt\tgene\t1\t10\t.\t+\t.", "a\tt\tCDS\t1\t4\t.\t-\t0",
         "a\tt\tgene\t5\t8\t.\t+\t."] (some "gene") =
      Except.ok ⟨2, [("gene", 2)], [("gene", 7)], [("+", 2)]⟩ ∧
    ((⟨2, [("gene", 2)], [("gene", 7)], [("+", 2)]⟩ : GffResult).total_features
        = (dictLookup (⟨3, [("gene", 2), ("CDS", 1)], [("gene", 7), ("CDS", 4)],
            [("+", 2), ("-", 1)]⟩ : GffResult).by_type "gene").getD 0 ∧
      (⟨2, [("gene", 2)], [("gene", 7)], [("+", 2)]⟩ : GffResult).by_type
        = (if (dictLookup (⟨3, [("gene", 2), ("CDS", 1)], [("gene", 7), ("CDS", 4)],
              [("+", 2), ("-", 1)]⟩ : GffResult).by_type "gene").getD 0 = 0 then []
           else [("gene", (dictLookup (⟨3, [("gene", 2), ("CDS", 1)],
              [("gene", 7), ("CDS", 4)],
              [("+", 2), ("-", 1)]⟩ : GffResult).by_type "gene").getD 0)])) :=
  ⟨by decide, by decide,
   claim_C5
     ["a\tt\tgene\t1\t10\t.\t+\t.", "a\tt\tCDS\t1\t4\t.\t-\t0",
      "a\tt\tgene\t5\t8\t.\t+\t."] "gene"
     ⟨3, [("gene", 2), ("CDS", 1)], [("gene", 7), ("CDS", 4)],
       [("+", 2), ("-", 1)]⟩
     ⟨2, [("gene", 2)], [("gene", 7)], [("+", 2)]⟩
     (by decide) (by decide)⟩

/-- C6 (amended): for every feature type `T` with at least one retained
record, `avg_length[T]` equals `round(sum/len, 1)` as the host computes
it: the exact mean of the lengths is correctly rounded to the nearest
IEEE-754 double, that double's exact value is rounded half-to-even at
one decimal place, and the result is returned as the nearest double
(`pyFloatAvg1`); the record count divided by is nonzero, so no division
by zero can occur. -/
theorem claim_C6 (lines : List String) (filt : Option String)
    (feats : List GffRecord) (T : String)
    (_h1 : processLines lines filt = .ok feats)
    (hT : feats.filter (fun f => f.feature == T) ≠ []) :
    ((feats.filter (fun f => f.feature == T)).map calculate_length).length ≠ 0 ∧
    dictLookup (avg_length_float_of feats) T
      = some (pyFloatAvg1
          ((feats.filter (fun f => f.feature == T)).map calculate_length)) := by
  refine ⟨by simp [hT], ?_⟩
  unfold avg_length_float_of
  rw [dictLookup_map_snd (lengths_by_type_of feats) pyFloatAvg1 T,
    dictLookup_lengths_by_type_of, if_neg hT]
  rfl

/-- Witness for C6: three "gene" records of lengths 10, 10 and 5; the
computed average is the double nearest 8.3, so `== 8.3` holds in the
host. -/
theorem claim_C6_witness :
    (([⟨"NC_000001", "test", "gene", 1, 10, ".", "+", ".", "ID=g1"⟩,
       ⟨"NC_000001", "test", "gene", 20, 29, ".", "+", ".", "ID=g2"⟩,
       ⟨"NC_000001", "test", "gene", 40, 44, ".", "+", ".", "ID=g3"⟩].filter
        (fun f => f.feature == "gene")).map calculate_length).length ≠ 0 ∧
    dictLookup (avg_length_float_of
        [⟨"NC_000001", "test", "gene", 1, 10, ".", "+", ".", "ID=g1"⟩,
         ⟨"NC_000001", "test", "gene", 20, 29, ".", "+", ".", "ID=g2"⟩,
         ⟨"NC_000001", "test", "gene", 40, 44, ".", "+", ".", "ID=g3"⟩]) "gene"
      = some (pyFloatAvg1
          (([⟨"NC_000001", "test", "gene", 1, 10, ".", "+", ".", "ID=g1"⟩,
             ⟨"NC_000001", "test", "gene", 20, 29, ".", "+", ".", "ID=g2"⟩,
             ⟨"NC_000001", "test", "gene", 40, 44, ".", "+", ".", "ID=g3"⟩].filter
              (fun f => f.feature == "gene")).map calculate_length)) ∧
    pyFloatAvg1 [10, 10, 5] = floatOfRat (83 / 10) :=
  ⟨(claim_C6
      ["NC_000001\ttest\tgene\t1\t10\t.\t+\t.\tID=g1",
       "NC_000001\ttest\tgene\t20\t29\t.\t+\t.\tID=g2",
       "NC_000001\ttest\tgene\t40\t44\t.\t+\t.\tID=g3"] none
      [⟨"NC_000001", "test", "gene", 1, 10, ".", "+", ".", "ID=g1"⟩,
       ⟨"NC_000001", "test", "gene", 20, 29, ".", "+", ".", "ID=g2"⟩,
       ⟨"NC_000001", "test", "gene", 40, 44, ".", "+", ".", "ID=g3"⟩] "gene"
      (by decide) (by decide)).1,
   (claim_C6
      ["NC_000001\ttest\tgene\t1\t10\t.\t+\t.\tID=g1",
       "NC_000001\ttest\tgene\t20\t29\t.\t+\t.\tID=g2",
       "NC_000001\ttest\tgene\t40\t44\t.\t+\t.\tID=g3"] none
      [⟨"NC_000001", "test", "gene", 1, 10, ".", "+", ".", "ID=g1"⟩,
       ⟨"NC_000001", "test", "gene", 20, 29, ".", "+", ".", "ID=g2"⟩,
       ⟨"NC_000001", "test", "gene", 40, 44, ".", "+", ".", "ID=g3"⟩] "gene"
      (by decide) (by decide)).2,
   by decide⟩

/-- Counterexample to C6 as stated: twenty retained "gene" records with
lengths three times 1 and seventeen times 0 have exact mean 3/20.
Round-half-to-even of the exact mean at one decimal gives 0.2, but the
program divides in double precision, where 3/20 becomes
0.1499999999999999944…, and `round` returns the double 0.1 — so
`avg_length["gene"]` is not the half-even rounding of the arithmetic
mean of the lengths. -/
theorem claim_C6_counterexample :
    dictLookup (avg_length_float_of
        (List.replicate 3 (⟨"c", "s", "gene", 1, 1, ".", "+", ".", ""⟩ : GffRecord)
          ++ List.replicate 17 ⟨"c", "s", "gene", 2, 1, ".", "+", ".", ""⟩)) "gene"
      = some (floatOfRat (1 / 10)) ∧
    pyRound1
        (((((List.replicate 3 (⟨"c", "s", "gene", 1, 1, ".", "+", ".", ""⟩ : GffRecord)
              ++ List.replicate 17
                (⟨"c", "s", "gene", 2, 1, ".", "+", ".", ""⟩ : GffRecord)).filter
                (fun f => f.feature == "gene")).map calculate_length).sum : ℚ)
          / ((((List.replicate 3 (⟨"c", "s", "gene", 1, 1, ".", "+", ".", ""⟩ : GffRecord)
              ++ List.replicate 17
                (⟨"c", "s", "gene", 2, 1, ".", "+", ".", ""⟩ : GffRecord)).filter
                (fun f => f.feature == "gene")).map calculate_length).length : ℚ))
      = 2 / 10 ∧
    floatOfRat (1 / 10) ≠ 2 / 10 ∧
    floatOfRat (1 / 10) ≠ floatOfRat (2 / 10) := by
  decide

/-- C7: for every input and every feature type `T` present in the
input, `avg_length[T]` from the run filtered on `T` equals
`avg_length[T]` from the unfiltered run over the same input. -/
theorem claim_C7 (lines : List String) (T : String) (r r' : GffResult)
    (h : process_gff lines none = .ok r)
    (h' : process_gff lines (some T) = .ok r')
    (hT : dictLookup r.by_type T ≠ none) :
    dictLookup r'.avg_length T = dictLookup r.avg_length T ∧
    dictLookup r.avg_length T ≠ none := by
  obtain ⟨feats, hf, rfl⟩ := process_gff_ok_iff.mp h
  obtain ⟨feats', hf', rfl⟩ := process_gff_ok_iff.mp h'
  have hff := processLines_filtered hf hf'
  subst hff
  have hne : feats.filter (fun f => f.feature == T) ≠ [] := by
    intro hnil
    apply hT
    show dictLookup (by_type_of feats) T = none
    rw [dictLookup_by_type_of, List.countP_eq_length_filter, hnil]
    simp
  have idem : (feats.filter (fun f => f.feature == T)).filter
        (fun f => f.feature == T)
      = feats.filter (fun f => f.feature == T) :=
    List.filter_eq_self.mpr (fun a ha => (List.mem_filter.mp ha).2)
  constructor
  · show dictLookup (avg_length_of (feats.filter (fun f => f.feature == T))) T
      = dictLookup (avg_length_of feats) T
    rw [dictLookup_avg_length_of, dictLookup_avg_length_of,
      dictLookup_lengths_by_type_of, dictLookup_lengths_by_type_of, idem]
  · show dictLookup (avg_length_of feats) T ≠ none
    rw [dictLookup_avg_length_of, dictLookup_lengths_by_type_of, if_neg hne]
    simp

/-- Witness for C7: the filtered and unfiltered runs on a mixed
gene/CDS input agree on the average gene length. -/
theorem claim_C7_witness :
    dictLookup (⟨2, [("gene", 2)], [("gene", 7)], [("+", 2)]⟩ : GffResult).avg_length
        "gene"
      = dictLookup (⟨3, [("gene", 2), ("CDS", 1)], [("gene", 7), ("CDS", 4)],
          [("+", 2), ("-", 1)]⟩ : GffResult).avg_length "gene" ∧
    dictLookup (⟨3, [("gene", 2), ("CDS", 1)], [("gene", 7), ("CDS", 4)],
        [("+", 2), ("-", 1)]⟩ : GffResult).avg_length "gene" ≠ none :=
  claim_C7
    ["a\tt\tgene\t1\t10\t.\t+\t.", "a\tt\tCDS\t1\t4\t.\t-\t0",
     "a\tt\tgene\t5\t8\t.\t+\t."] "gene"
    ⟨3, [("gene", 2), ("CDS", 1)], [("gene", 7), ("CDS", 4)],
      [("+", 2), ("-", 1)]⟩
    ⟨2, [("gene", 2)], [("gene", 7)], [("+", 2)]⟩
    (by decide) (by decide) (by decide)

/-- C8: the length of a record is exactly `end - start + 1` (so
`start=100, end=100` gives 1 and `start=1, end=107` gives 107), and a
record with `end < start` is not an error: it is counted and its
nonpositive length is folded into the average for its type. -/
theorem claim_C8 (r : GffRecord) :
    calculate_length r = r.«end» - r.start + 1 ∧
    (r.start = 100 → r.«end» = 100 → calculate_length r = 1) ∧
    (r.start = 1 → r.«end» = 107 → calculate_length r = 107) ∧
    (r.«end» < r.start →
      calculate_length r ≤ 0 ∧
      (aggregate [r]).total_features = 1 ∧
      dictLookup (aggregate [r]).by_type r.feature = some 1 ∧
      dictLookup (aggregate [r]).avg_length r.feature
        = some (pyRound1 ((calculate_length r : ℚ)))) := by
  refine ⟨rfl, ?_, ?_, ?_⟩
  · intro h1 h2
    simp [calculate_length, h1, h2]
  · intro h1 h2
    simp [calculate_length, h1, h2]
  · intro hlt
    refine ⟨by simp only [calculate_length]; omega, rfl, ?_, ?_⟩
    · show dictLookup (by_type_of [r]) r.feature = some 1
      rw [dictLookup_by_type_of]
      simp
    · show dictLookup (avg_length_of [r]) r.feature = _
      rw [dictLookup_avg_length_of, dictLookup_lengths_by_type_of]
      simp

/-- Witness for C8 on a record with `end < start` (length -4). -/
theorem claim_C8_witness :
    (⟨"chr", "src", "gene", 10, 5, ".", "+", ".", ""⟩ : GffRecord).«end»
        < (⟨"chr", "src", "gene", 10, 5, ".", "+", ".", ""⟩ : GffRecord).start ∧
    (calculate_length ⟨"chr", "src", "gene", 10, 5, ".", "+", ".", ""⟩ ≤ 0 ∧
     (aggregate [⟨"chr", "src", "gene", 10, 5, ".", "+", ".", ""⟩]).total_features = 1 ∧
     dictLookup (aggregate [⟨"chr", "src", "gene", 10, 5, ".", "+", ".", ""⟩]).by_type
         (⟨"chr", "src", "gene", 10, 5, ".", "+", ".", ""⟩ : GffRecord).feature
       = some 1 ∧
     dictLookup (aggregate [⟨"chr", "src", "gene", 10, 5, ".", "+", ".", ""⟩]).avg_length
         (⟨"chr", "src", "gene", 10, 5, ".", "+", ".", ""⟩ : GffRecord).feature
       = some (pyRound1
           ((calculate_length ⟨"chr", "src", "gene", 10, 5, ".", "+", ".", ""⟩ : ℚ)))) :=
  ⟨by decide,
   (claim_C8 ⟨"chr", "src", "gene", 10, 5, ".", "+", ".", ""⟩).2.2.2 (by decide)⟩

theorem mem_map_feature_iff_countP (feats : List GffRecord) (t : String) :
    t ∈ feats.map GffRecord.feature
      ↔ feats.countP (fun f => f.feature == t) ≠ 0 := by
  rw [Ne, List.countP_eq_zero]
  push_neg
  simp [List.mem_map]

/-- C9: for every input, the keys of `by_type` are exactly the distinct
feature types of the retained records, every `by_type` value is at
least 1, and `avg_length` has exactly the same keys as `by_type`. -/
theorem claim_C9 (lines : List String) (filt : Option String)
    (feats : List GffRecord) (r : GffResult)
    (h1 : processLines lines filt = .ok feats)
    (h2 : process_gff lines filt = .ok r) :
    (∀ t, (dictLookup r.by_type t).isSome = true
        ↔ t ∈ feats.map GffRecord.feature) ∧
    (∀ t n, dictLookup r.by_type t = some n → 1 ≤ n) ∧
    (∀ t, (dictLookup r.avg_length t).isSome
        = (dictLookup r.by_type t).isSome) := by
  have hr := aggregate_eq_of_ok h1 h2
  subst hr
  refine ⟨fun t => ?_, fun t n hn => ?_, fun t => ?_⟩
  · show (dictLookup (by_type_of feats) t).isSome = true ↔ _
    rw [dictLookup_by_type_of, mem_map_feature_iff_countP]
    by_cases hc : feats.countP (fun f => f.feature == t) = 0 <;> simp [hc]
  · have hn' : dictLookup (by_type_of feats) t = some n := hn
    rw [dictLookup_by_type_of] at hn'
    by_cases hc : feats.countP (fun f => f.feature == t) = 0
    · rw [if_pos hc] at hn'
      cases hn'
    · rw [if_neg hc] at hn'
      cases hn'
      omega
  · show (dictLookup (avg_length_of feats) t).isSome
      = (dictLookup (by_type_of feats) t).isSome
    rw [dictLookup_avg_length_of, dictLookup_lengths_by_type_of,
      dictLookup_by_type_of, List.countP_eq_length_filter]
    by_cases hc : feats.filter (fun f => f.feature == t) = [] <;>
      simp [hc, List.length_eq_zero]

/-- Witness for C9 on a concrete two-type input. -/
theorem claim_C9_witness :
    (∀ t, (dictLookup (⟨2, [("gene", 1), ("CDS", 1)], [("gene", 101), ("CDS", 51)],
          [("+", 1), ("-", 1)]⟩ : GffResult).by_type t).isSome = true
        ↔ t ∈ [⟨"NC_000001", "test", "gene", 100, 200, ".", "+", ".", "ID=t1"⟩,
               (⟨"NC_000001", "test", "CDS", 100, 150, ".", "-", "0", "ID=t2"⟩ :
                 GffRecord)].map GffRecord.feature) ∧
    (∀ t n, dictLookup (⟨2, [("gene", 1), ("CDS", 1)], [("gene", 101), ("CDS", 51)],
          [("+", 1), ("-", 1)]⟩ : GffResult).by_type t = some n → 1 ≤ n) ∧
    (∀ t, (dictLookup (⟨2, [("gene", 1), ("CDS", 1)], [("gene", 101), ("CDS", 51)],
          [("+", 1), ("-", 1)]⟩ : GffResult).avg_length t).isSome
        = (dictLookup (⟨2, [("gene", 1), ("CDS", 1)], [("gene", 101), ("CDS", 51)],
          [("+", 1), ("-", 1)]⟩ : GffResult).by_type t).isSome) :=
  claim_C9
    ["NC_000001\ttest\tgene\t100\t200\t.\t+\t.\tID=t1",
     "NC_000001\ttest\tCDS\t100\t150\t.\t-\t0\tID=t2"] none
    [⟨"NC_000001", "test", "gene", 100, 200, ".", "+", ".", "ID=t1"⟩,
     ⟨"NC_000001", "test", "CDS", 100, 150, ".", "-", "0", "ID=t2"⟩]
    ⟨2, [("gene", 1), ("CDS", 1)], [("gene", 101), ("CDS", 51)],
      [("+", 1), ("-", 1)]⟩
    (by decide) (by decide)

/-- C10: `int()` in `parse_gff_line` accepts more than plain digit
strings: surrounding spaces, explicit signs and underscore digit
separators succeed, so records with negative coordinates can be
produced at the public interface. -/
theorem claim_C10 :
    parse_gff_line "chr\tsrc\tgene\t-5\t 7 \t.\t+\t." =
      .record ⟨"chr", "src", "gene", -5, 7, ".", "+", ".", ""⟩ ∧
    parse_gff_line "chr\tsrc\tgene\t1_000\t2_500\t.\t-\t.\tID=x" =
      .record ⟨"chr", "src", "gene", 1000, 2500, ".", "-", ".", "ID=x"⟩ ∧
    pyInt "-5" = some (-5) ∧
    pyInt " 7 " = some 7 ∧
    pyInt "1_000" = some 1000 ∧
    pyInt "+42" = some 42 := by
  decide
